import Mathlib

/-!
Verification of the KYB risk-assessment engine (risk scoring, signal
normalization, sanctions fuzzy matching, registry status normalization).

The embedding mirrors the Python sources:
  * `core/risk.py` — `_calculate_company_age`, `_get_normalized_signals`,
    `_risk_label`, `compute_risk`;
  * `services/sanctions.py` — `check_sanctions` (with a model of
    `rapidfuzz.fuzz.partial_ratio`);
  * `services/registry_client.py` — `_normalize_status`.

Python dictionaries with dynamically-shaped values are modelled by the
`PyVal` universe; a `.get` attribute access on a non-dict value is an
`AttributeError`, modelled by `Except.error "AttributeError"`.  The
current date (`datetime.today().date()`) is an explicit `today`
parameter, given as a day number in the civil calendar (same epoch as
`daysFromCivil`).  Exact rational arithmetic stands in for Python float
arithmetic; for the quantities involved here (day counts divided by
365.25, similarity ratios with denominators below a few hundred) the
float results round and truncate identically to the exact rationals.
-/

namespace KYB

set_option maxRecDepth 8000

/-- A universe of Python values, covering the shapes that can occur in the
`state` dictionaries consumed by `compute_risk`.  Dicts are association
lists with string keys (Python dict keys are unique; lookup takes the
first binding). -/
inductive PyVal where
  | none : PyVal
  | bool : Bool → PyVal
  | int : Int → PyVal
  | str : String → PyVal
  | list : List PyVal → PyVal
  | dict : List (String × PyVal) → PyVal

/-- Python truthiness (`if v:`): `None`/`False`/`0`/empty containers are
falsy, everything else is truthy. -/
def PyVal.truthy : PyVal → Bool
  | .none => false
  | .bool b => b
  | .int n => n != 0
  | .str s => s != ""
  | .list xs => !xs.isEmpty
  | .dict es => !es.isEmpty

/-- Python `v.get(key, default)`: succeeds on dicts, raises
`AttributeError` on every other value (there is no try/except around the
`.get` calls in `_get_normalized_signals`). -/
def PyVal.get : PyVal → String → PyVal → Except String PyVal
  | .dict es, k, dflt => .ok ((es.lookup k).getD dflt)
  | _, _, _ => .error "AttributeError"

/-- Python `v == "s"` for a string literal: true exactly when `v` is that
string (a bool/int/None never equals a str in Python). -/
def PyVal.eqStr : PyVal → String → Bool
  | .str t, s => t = s
  | _, _ => false

/-! ### Calendar arithmetic (models `datetime.date`) -/

/-- Gregorian leap-year rule used by `datetime.date`. -/
def isLeapYear (y : Nat) : Bool :=
  (y % 4 == 0 && y % 100 != 0) || y % 400 == 0

/-- Days in a month of the proleptic Gregorian calendar. -/
def daysInMonth (y m : Nat) : Nat :=
  if m = 2 then (if isLeapYear y then 29 else 28)
  else if m = 4 ∨ m = 6 ∨ m = 9 ∨ m = 11 then 30
  else 31

/-- Value of a list of decimal digit characters. -/
def digitsToNat (cs : List Char) : Nat :=
  cs.foldl (fun acc c => 10 * acc + (c.toNat - '0'.toNat)) 0

/-- Split a character list on `'-'`, like Python `s.split("-")`
(so the empty string yields `[[]]`). -/
def splitOnDash : List Char → List (List Char)
  | [] => [[]]
  | c :: cs =>
    if c = '-' then [] :: splitOnDash cs
    else
      match splitOnDash cs with
      | [] => [[c]]
      | p :: ps => (c :: p) :: ps

/-- Models `datetime.strptime(s, "%Y-%m-%d").date()`: the year is exactly
four digits, month and day one or two digits, and the triple must be a
valid proleptic-Gregorian date with year at least 1 (`datetime.MINYEAR`);
any other string raises `ValueError` (here: `Option.none`). -/
def parseDate (s : String) : Option (Nat × Nat × Nat) :=
  match splitOnDash s.data with
  | [ys, ms, ds] =>
    if ys.length = 4 && ys.all Char.isDigit &&
       (ms.length = 1 || ms.length = 2) && ms.all Char.isDigit &&
       (ds.length = 1 || ds.length = 2) && ds.all Char.isDigit then
      let y := digitsToNat ys
      let m := digitsToNat ms
      let d := digitsToNat ds
      if 1 ≤ y && 1 ≤ m && m ≤ 12 && 1 ≤ d && d ≤ daysInMonth y m then
        some (y, m, d)
      else .none
    else .none
  | _ => .none

/-- Day number of a civil date (standard days-from-civil algorithm,
epoch 1970-01-01 = day 0).  Differences of two values of this function
model `(date1 - date2).days`. -/
def daysFromCivil (y m d : Nat) : Int :=
  let yi : Int := if m ≤ 2 then (y : Int) - 1 else (y : Int)
  let era : Int := Int.fdiv yi 400
  let yoe : Int := yi - era * 400
  let mp : Int := ((m : Int) + 9) % 12
  let doy : Int := Int.fdiv (153 * mp + 2) 5 + (d : Int) - 1
  let doe : Int := yoe * 365 + Int.fdiv yoe 4 - Int.fdiv yoe 100 + doy
  era * 146097 + doe - 719468

/-! ### `core/risk.py` -/

/-- `_calculate_company_age` from `core/risk.py`.  Falsy input returns 0;
a non-string raises `TypeError` inside `strptime`, caught by the blanket
`except Exception` and mapped to 0; an unparsable string raises
`ValueError`, caught and mapped to 0.  Otherwise the age is
`int(days / 365.25)` — Python `int()` truncates toward zero, and
`days / 365.25 = 4*days / 1461` exactly (365.25 is an exact binary
float and the quotient is far closer to the exact rational than to any
integer boundary), so the result is `Int.tdiv (4*days) 1461`. -/
def _calculate_company_age (today : Int) (incorporation_date : PyVal) : Int :=
  if incorporation_date.truthy then
    match incorporation_date with
    | .str s =>
      match parseDate s with
      | some (y, m, d) => Int.tdiv ((today - daysFromCivil y m d) * 4) 1461
      | .none => 0
    | _ => 0
  else 0

/-- The signal bundle built by `_get_normalized_signals`.  `registry_match`
and `sanctions_match` are raw dict values (the Python code applies
truthiness to them only inside `compute_risk`); the remaining signals are
genuine booleans produced by comparisons. -/
structure Signals where
  registry_match : PyVal
  is_active : Bool
  age_gte_3 : Bool
  sanctions_match : PyVal
  address_mismatch : Bool
  first_time_bank : Bool
  company_age_actual : Int

/-- `_get_normalized_signals` from `core/risk.py`.  Each `.get` on a
non-dict raises `AttributeError` (uncaught); absent keys fall back to the
defaults `{}`, `False`, `None` exactly as in the source. -/
def _get_normalized_signals (today : Int) (state : PyVal) : Except String Signals := do
  let verifications ← state.get "verifications" (.dict [])
  let registry_data ← verifications.get "registry" (.dict [])
  let sanctions_data ← verifications.get "sanctions" (.dict [])
  let registry_match ← registry_data.get "match" (.bool false)
  let status ← registry_data.get "status" .none
  let incorporation_date ← registry_data.get "incorporation_date" .none
  let sanctions_match ← sanctions_data.get "match" (.bool false)
  let company_age := _calculate_company_age today incorporation_date
  Except.ok {
    registry_match := registry_match
    is_active := status.eqStr "active"
    age_gte_3 := decide (company_age ≥ 3)
    sanctions_match := sanctions_match
    address_mismatch := false
    first_time_bank := false
    company_age_actual := company_age }

/-- `_risk_label` from `core/risk.py`. -/
def _risk_label (score : Int) : String :=
  if score ≥ 70 then "high" else if score ≥ 40 then "medium" else "low"

/-- Result shape of `compute_risk`. -/
structure RiskResult where
  score : Int
  label : String
deriving DecidableEq

/-- The deterministic scoring section of `compute_risk` (steps after the
signal extraction), kept as a separate function of the signal bundle. -/
def scoreFromSignals (signals : Signals) : RiskResult :=
  let base : Int := 0
  let base := if signals.registry_match.truthy then base + 30 else base
  let base := if signals.is_active then base + 20 else base
  let base := if signals.age_gte_3 then base + 15 else base
  let base := if signals.address_mismatch then base - 10 else base
  let base := if signals.first_time_bank then base - 10 else base
  let base := if signals.sanctions_match.truthy then max base 90 else base
  let score := min 100 (max 0 base)
  { score := score, label := _risk_label score }

/-- `compute_risk` from `core/risk.py`: signal extraction followed by the
scoring rules; an `AttributeError` from the extraction propagates. -/
def compute_risk (today : Int) (state : PyVal) : Except String RiskResult :=
  (_get_normalized_signals today state).map scoreFromSignals

/-! ### `services/sanctions.py` -/

/-- An exact non-negative rational `num/den` (den always positive where
used), standing in for the float similarity scores of rapidfuzz.  For the
short names involved the float comparisons and rounding agree with the
exact rational ones. -/
structure Frac where
  num : Nat
  den : Nat
deriving DecidableEq

/-- Strict order on score fractions by cross multiplication (valid since
every `Frac` built here has a positive denominator). -/
def Frac.lt (a b : Frac) : Bool := a.num * b.den < b.num * a.den

/-- Non-strict order on score fractions by cross multiplication. -/
def Frac.le (a b : Frac) : Bool := a.num * b.den ≤ b.num * a.den

/-- Python `int(round(x))` for a non-negative exact value: round half to
even, then the integer is already exact. -/
def Frac.roundHalfEven (a : Frac) : Nat :=
  let q := a.num / a.den
  let r := a.num % a.den
  if 2 * r < a.den then q
  else if a.den < 2 * r then q + 1
  else if q % 2 = 0 then q else q + 1

/-- One cell-by-cell step of a row update in the longest-common-subsequence
dynamic program: arguments are the remaining characters of the first
string, the previous cell of the new row, and the previous row from the
diagonal cell onward. -/
def lcsRowGo (y : Char) : List Char → Nat → List Nat → List Nat
  | [], _, _ => []
  | _ :: _, _, [] => []
  | x :: xs, qprev, pjm1 :: prest =>
    let pj := prest.headD 0
    let qj := if x = y then pjm1 + 1 else max qprev pj
    qj :: lcsRowGo y xs qj prest

/-- Full row update of the LCS dynamic program for one character of the
second string. -/
def lcsRow (y : Char) (xs : List Char) (prev : List Nat) : List Nat :=
  0 :: lcsRowGo y xs 0 prev

/-- Length of the longest common subsequence of two character lists
(row-based dynamic program). -/
def lcsLen (xs ys : List Char) : Nat :=
  (ys.foldl (fun prev y => lcsRow y xs prev)
    (List.replicate (xs.length + 1) 0)).getLastD 0

/-- Models `rapidfuzz.fuzz.ratio`: the normalized indel similarity
`100 * (1 - dist/(|s1|+|s2|))`, where the indel distance is
`|s1|+|s2| - 2*lcs`, so the ratio is `200*lcs/(|s1|+|s2|)`; two empty
strings score 100. -/
def ratio (s1 s2 : List Char) : Frac :=
  let total := s1.length + s2.length
  if total = 0 then ⟨100, 1⟩ else ⟨200 * lcsLen s1 s2, total⟩

/-- All contiguous substrings of `s` of length `n`, left to right. -/
def windowsOfLen (n : Nat) : List Char → List (List Char)
  | [] => if n = 0 then [[]] else []
  | c :: cs =>
    if n ≤ (c :: cs).length then (c :: cs).take n :: windowsOfLen n cs else []

/-- Models `rapidfuzz.fuzz.partial_ratio` as the spec describes it: the
maximum, over all contiguous substrings of the longer string with length
equal to the shorter string, of the `ratio` against the shorter string. -/
def bestAlignRatio (s1 s2 : List Char) : Frac :=
  let p := if s1.length ≤ s2.length then (s1, s2) else (s2, s1)
  (windowsOfLen p.1.length p.2).foldl
    (fun acc w => let r := ratio p.1 w; if acc.lt r then r else acc) ⟨0, 1⟩

/-- Python `str.lower()` (ASCII model, which covers the sanctions data). -/
def pyLower (s : String) : String := String.mk (s.data.map Char.toLower)

/-- Worker for `pyTitle`: the boolean records whether the previous
character was alphabetic. -/
def pyTitleGo : Bool → List Char → List Char
  | _, [] => []
  | prevAlpha, c :: cs =>
    (if c.isAlpha then (if prevAlpha then c.toLower else c.toUpper) else c)
      :: pyTitleGo c.isAlpha cs

/-- Python `str.title()` (ASCII model): uppercase each letter that follows
a non-letter, lowercase every other letter. -/
def pyTitle (s : String) : String := String.mk (pyTitleGo false s.data)

/-- Python `max(x :: xs, key=key)`: scan left to right, replacing the
current maximum only on a strictly greater key, so ties keep the first
occurrence. -/
def pyMax (key : String → Frac) (x : String) (xs : List String) : String :=
  xs.foldl (fun acc y => if (key acc).lt (key y) then y else acc) x

/-- Return shape of `check_sanctions` (the Python field `match` is a Lean
keyword, so it is called `matched` here). -/
structure SanctionsResponse where
  matched : Bool
  matched_name : Option String
  score : Nat
deriving DecidableEq

/-- Calibrated match threshold from `services/sanctions.py`. -/
def MATCH_THRESHOLD : Nat := 86

/-- `check_sanctions` from `services/sanctions.py`, with the module-level
`_SANCTIONS_LIST` (already lower-cased at load time) passed explicitly.
Guard clauses: empty list, then empty name.  Otherwise the candidate is
lower-cased, the best-scoring reference name is selected by Python `max`
(first occurrence wins ties), its score is rounded to an integer, and the
threshold decides the match; a matched name is rendered by `str.title()`. -/
def check_sanctions (sanctionsList : List String) (name : String) : SanctionsResponse :=
  match sanctionsList with
  | [] => ⟨false, .none, 0⟩
  | x :: xs =>
    if name = "" then ⟨false, .none, 0⟩
    else
      let name_lower := pyLower name
      let best_match_name :=
        pyMax (fun listed_name => bestAlignRatio name_lower.data listed_name.data) x xs
      let score := bestAlignRatio name_lower.data best_match_name.data
      let int_score := score.roundHalfEven
      let is_match := decide (int_score ≥ MATCH_THRESHOLD)
      ⟨is_match, if is_match then some (pyTitle best_match_name) else .none, int_score⟩

/-! ### `services/registry_client.py` -/

/-- `_normalize_status` from `services/registry_client.py`: `None` or the
empty string give `"unknown"`; otherwise the lower-cased input is tested
for exact membership in three fixed synonym sets, and anything else is
`"other"`. -/
def _normalize_status (status_str : Option String) : String :=
  match status_str with
  | .none => "unknown"
  | some s =>
    if s = "" then "unknown"
    else
      let t := pyLower s
      if t = "active" ∨ t = "company is active" then "active"
      else if t = "inactive" ∨ t = "in liquidation" then "inactive"
      else if t = "dissolved" ∨ t = "converted to another form" ∨ t = "closed" then "dissolved"
      else "other"

/-- Sanity anchor for the calendar arithmetic: the epoch and a leap
year. -/
theorem daysFromCivil_anchor :
    daysFromCivil 1970 1 1 = 0 ∧ daysFromCivil 1970 1 2 = 1 ∧
    daysFromCivil 2000 3 1 = 11017 ∧
    parseDate "2012-03-21" = some (2012, 3, 21) ∧
    parseDate "2012-02-30" = Option.none := by
  refine ⟨by decide, by decide, by decide, by decide, by decide⟩

/-- End-to-end scenario: a matched, active, ten-year-old company with no
sanctions hit scores 65 (`"medium"`), and the same company with a
sanctions hit scores 90 (`"high"`) — the override applies on top of the
unmodified base 65. -/
theorem compute_risk_scenarios :
    compute_risk (daysFromCivil 2022 1 1) (.dict [("verifications", .dict [
      ("registry", .dict [("match", .bool true), ("status", .str "active"),
        ("incorporation_date", .str "2012-01-01")]),
      ("sanctions", .dict [("match", .bool false)])])]) =
        Except.ok ⟨65, "medium"⟩ ∧
    compute_risk (daysFromCivil 2022 1 1) (.dict [("verifications", .dict [
      ("registry", .dict [("match", .bool true), ("status", .str "active"),
        ("incorporation_date", .str "2012-01-01")]),
      ("sanctions", .dict [("match", .bool true)])])]) =
        Except.ok ⟨90, "high"⟩ := ⟨rfl, rfl⟩

/-- End-to-end sanctions scenario: a legal-suffix variant of a listed
name is matched through the partial-alignment window and rendered in
title case. -/
theorem check_sanctions_scenario_suffix :
    check_sanctions ["vladimir putin"] "Vladimir Putin Holdings" =
      ⟨true, some "Vladimir Putin", 100⟩ := rfl

/-! ### Helper lemmas about the risk scorer -/

lemma risk_label_eq_high_iff (n : Int) : _risk_label n = "high" ↔ 70 ≤ n := by
  unfold _risk_label
  split_ifs with h1 h2 <;> simp_all <;> omega

lemma risk_label_eq_medium_iff (n : Int) :
    _risk_label n = "medium" ↔ 40 ≤ n ∧ n < 70 := by
  unfold _risk_label
  split_ifs with h1 h2 <;> simp_all <;> omega

lemma risk_label_eq_low_iff (n : Int) : _risk_label n = "low" ↔ n < 40 := by
  unfold _risk_label
  split_ifs with h1 h2 <;> simp_all <;> omega

lemma risk_label_mem (n : Int) :
    _risk_label n ∈ (["low", "medium", "high"] : List String) := by
  unfold _risk_label
  split_ifs <;> simp

lemma scoreFromSignals_score_nonneg (s : Signals) : 0 ≤ (scoreFromSignals s).score := by
  unfold scoreFromSignals
  exact le_min (by norm_num) (le_max_left 0 _)

lemma scoreFromSignals_score_le_100 (s : Signals) : (scoreFromSignals s).score ≤ 100 := by
  unfold scoreFromSignals
  exact min_le_left 100 _

/-- Claim C5: the label thresholds of the risk scorer are exact — `"high"`
iff the score is at least 70, `"medium"` iff it is in `[40, 70)`, `"low"`
iff it is below 40; in particular 70 ↦ high, 69 ↦ medium, 40 ↦ medium,
39 ↦ low. -/
theorem risk_label_thresholds :
    (∀ score : Int,
      (_risk_label score = "high" ↔ 70 ≤ score) ∧
      (_risk_label score = "medium" ↔ 40 ≤ score ∧ score < 70) ∧
      (_risk_label score = "low" ↔ score < 40)) ∧
    _risk_label 70 = "high" ∧ _risk_label 69 = "medium" ∧
    _risk_label 40 = "medium" ∧ _risk_label 39 = "low" :=
  ⟨fun score => ⟨risk_label_eq_high_iff score, risk_label_eq_medium_iff score,
    risk_label_eq_low_iff score⟩, rfl, rfl, rfl, rfl⟩

/-- Claim C1: for every signal bundle in which the sanctions-match signal
is truthy, the scoring section of `compute_risk` yields a score of at
least 90 and the label `"high"`, whatever the other signals are; and the
sanctions override never lowers the score below what the same bundle
would have scored without a sanctions match. -/
theorem sanctions_override_floor (s : Signals)
    (h : s.sanctions_match.truthy = true) :
    90 ≤ (scoreFromSignals s).score ∧
    (scoreFromSignals s).label = "high" ∧
    (scoreFromSignals { s with sanctions_match := PyVal.bool false }).score ≤
      (scoreFromSignals s).score := by
  obtain ⟨rm, ia, ag, sm, am, fb, ca⟩ := s
  simp only at h
  rcases hrm : rm.truthy <;> cases ia <;> cases ag <;> cases am <;> cases fb <;>
    all_goals (simp only [scoreFromSignals, hrm, h]; decide)

/-- Claim C1 witness: the all-false bundle with a sanctions match scores
at least 90 with label `"high"`, and at least as much as without the
match. -/
theorem sanctions_override_floor_witness :
    90 ≤ (scoreFromSignals ⟨.bool false, false, false, .bool true, false, false, 0⟩).score ∧
    (scoreFromSignals ⟨.bool false, false, false, .bool true, false, false, 0⟩).label = "high" ∧
    (scoreFromSignals ⟨.bool false, false, false, .bool false, false, false, 0⟩).score ≤
      (scoreFromSignals ⟨.bool false, false, false, .bool true, false, false, 0⟩).score :=
  sanctions_override_floor ⟨.bool false, false, false, .bool true, false, false, 0⟩ rfl

/-- Claim C6: for every signal bundle the clamped score lies in `[0,100]`,
and a bundle that triggers no rule scores exactly 0 with label `"low"`. -/
theorem score_clamp_and_no_rules :
    (∀ s : Signals, 0 ≤ (scoreFromSignals s).score ∧ (scoreFromSignals s).score ≤ 100) ∧
    (∀ s : Signals, s.registry_match.truthy = false → s.is_active = false →
      s.age_gte_3 = false → s.sanctions_match.truthy = false →
      s.address_mismatch = false → s.first_time_bank = false →
      scoreFromSignals s = ⟨0, "low"⟩) := by
  refine ⟨fun s => ⟨scoreFromSignals_score_nonneg s, scoreFromSignals_score_le_100 s⟩,
    fun s h1 h2 h3 h4 h5 h6 => ?_⟩
  obtain ⟨rm, ia, ag, sm, am, fb, ca⟩ := s
  simp only at h1 h2 h3 h4 h5 h6
  subst h2 h3 h5 h6
  unfold scoreFromSignals
  simp [h1, h4]
  rfl

/-- Claim C6 witness: the all-false bundle is in bounds and scores
`⟨0, "low"⟩`. -/
theorem score_clamp_and_no_rules_witness :
    (0 ≤ (scoreFromSignals ⟨.bool false, false, false, .bool false, false, false, 0⟩).score ∧
      (scoreFromSignals ⟨.bool false, false, false, .bool false, false, false, 0⟩).score ≤ 100) ∧
    scoreFromSignals ⟨.bool false, false, false, .bool false, false, false, 0⟩ = ⟨0, "low"⟩ :=
  ⟨score_clamp_and_no_rules.1 _, score_clamp_and_no_rules.2 _ rfl rfl rfl rfl rfl rfl⟩

/-- Concrete state for claim C10: the registry payload reports
`match: False` but `status: "active"`. -/
def stateActiveNoMatch : PyVal :=
  .dict [("verifications", .dict [("registry",
    .dict [("match", .bool false), ("status", .str "active")])])]

/-- Claim C10: `is_active` is derived from the registry `status` field
alone — on a state whose registry record has `match = False` but
`status = "active"`, the normalizer emits `registry_match` falsy and
`is_active` true, and `compute_risk` scores 20 (the is-active bonus,
without the +30 registry-match bonus). -/
theorem is_active_independent_of_registry_match :
    _get_normalized_signals 0 stateActiveNoMatch =
      Except.ok ⟨.bool false, true, false, .bool false, false, false, 0⟩ ∧
    compute_risk 0 stateActiveNoMatch = Except.ok ⟨20, "low"⟩ ∧
    (20 : Int) ≥ 20 :=
  ⟨rfl, rfl, le_refl 20⟩

/-! ### Helper lemmas about signal extraction -/

lemma except_bind_ok {α β : Type} {x : Except String α} {f : α → Except String β} {b : β}
    (h : (x >>= f) = Except.ok b) : ∃ a, x = Except.ok a ∧ f a = Except.ok b := by
  cases x with
  | error e => exact Except.noConfusion h
  | ok a => exact ⟨a, rfl, h⟩

lemma except_ok_bind {α β : Type} (a : α) (f : α → Except String β) :
    (Except.ok a >>= f) = f a := rfl

/-- The reserved signals are always false, and `age_gte_3` is the 3-year
threshold on the reported age, in every successfully normalized bundle. -/
lemma get_normalized_signals_reserved {today : Int} {state : PyVal} {s : Signals}
    (h : _get_normalized_signals today state = Except.ok s) :
    s.address_mismatch = false ∧ s.first_time_bank = false ∧
    s.age_gte_3 = decide (3 ≤ s.company_age_actual) := by
  unfold _get_normalized_signals at h
  obtain ⟨v, hv, h⟩ := except_bind_ok h
  obtain ⟨rd, hrd, h⟩ := except_bind_ok h
  obtain ⟨sd, hsd, h⟩ := except_bind_ok h
  obtain ⟨rm, hrm, h⟩ := except_bind_ok h
  obtain ⟨st, hst, h⟩ := except_bind_ok h
  obtain ⟨inc, hinc, h⟩ := except_bind_ok h
  obtain ⟨sm, hsm, h⟩ := except_bind_ok h
  cases h
  exact ⟨rfl, rfl, rfl⟩

/-- Recognizer for dict values. -/
def isDict : PyVal → Bool
  | .dict _ => true
  | _ => false

/-- A state is well-shaped for `compute_risk` when it is a dict and its
`verifications` value, and in turn the `registry` and `sanctions` values,
are dicts or absent (absent keys fall back to `{}`).  These are exactly
the states on which no `.get` attribute access raises. -/
def wellShaped : PyVal → Bool
  | .dict es =>
    match (es.lookup "verifications").getD (.dict []) with
    | .dict ves =>
      isDict ((ves.lookup "registry").getD (.dict [])) &&
      isDict ((ves.lookup "sanctions").getD (.dict []))
    | _ => false
  | _ => false

lemma isDict_dict {v : PyVal} (h : isDict v = true) : ∃ l, v = PyVal.dict l := by
  cases v with
  | none => exact Bool.noConfusion h
  | bool b => exact Bool.noConfusion h
  | int n => exact Bool.noConfusion h
  | str s => exact Bool.noConfusion h
  | list xs => exact Bool.noConfusion h
  | dict l => exact ⟨l, rfl⟩

/-- On a dict state whose sub-sections are dicts, signal extraction
succeeds and produces exactly the bundle read off the `registry` and
`sanctions` dicts. -/
lemma get_normalized_signals_dicts (today : Int) (es ves res ses : List (String × PyVal))
    (hv : (es.lookup "verifications").getD (.dict []) = .dict ves)
    (hr : (ves.lookup "registry").getD (.dict []) = .dict res)
    (hs : (ves.lookup "sanctions").getD (.dict []) = .dict ses) :
    _get_normalized_signals today (.dict es) = Except.ok {
      registry_match := (res.lookup "match").getD (.bool false)
      is_active := ((res.lookup "status").getD .none).eqStr "active"
      age_gte_3 := decide
        (_calculate_company_age today ((res.lookup "incorporation_date").getD .none) ≥ 3)
      sanctions_match := (ses.lookup "match").getD (.bool false)
      address_mismatch := false
      first_time_bank := false
      company_age_actual :=
        _calculate_company_age today ((res.lookup "incorporation_date").getD .none) } := by
  unfold _get_normalized_signals
  simp only [PyVal.get, except_ok_bind, hv, hr, hs]

lemma wellShaped_signals_ok (today : Int) (state : PyVal) (h : wellShaped state = true) :
    ∃ s, _get_normalized_signals today state = Except.ok s := by
  cases state with
  | dict es =>
    unfold wellShaped at h
    dsimp only at h
    cases hv : (es.lookup "verifications").getD (.dict []) with
    | dict ves =>
      rw [hv] at h
      dsimp only at h
      rw [Bool.and_eq_true] at h
      obtain ⟨res, hres⟩ := isDict_dict h.1
      obtain ⟨ses, hses⟩ := isDict_dict h.2
      exact ⟨_, get_normalized_signals_dicts today es ves res ses hv hres hses⟩
    | none => rw [hv] at h; exact Bool.noConfusion h
    | bool b => rw [hv] at h; exact Bool.noConfusion h
    | int n => rw [hv] at h; exact Bool.noConfusion h
    | str s => rw [hv] at h; exact Bool.noConfusion h
    | list xs => rw [hv] at h; exact Bool.noConfusion h
  | none => exact Bool.noConfusion h
  | bool b => exact Bool.noConfusion h
  | int n => exact Bool.noConfusion h
  | str s => exact Bool.noConfusion h
  | list xs => exact Bool.noConfusion h

/-- Claim C4 (amended): on every well-shaped state — the `verifications`
value and its `registry`/`sanctions` sub-sections are dicts or absent —
`compute_risk` succeeds with a score in `[0,100]` and one of the three
labels; absent sub-sections or missing fields are treated as no match.
(A non-dict sub-section instead raises, see the counterexample.) -/
theorem compute_risk_ok_on_wellShaped (today : Int) (state : PyVal)
    (h : wellShaped state = true) :
    ∃ r, compute_risk today state = Except.ok r ∧ 0 ≤ r.score ∧ r.score ≤ 100 ∧
      r.label ∈ (["low", "medium", "high"] : List String) := by
  obtain ⟨s, hs⟩ := wellShaped_signals_ok today state h
  refine ⟨scoreFromSignals s, ?_, scoreFromSignals_score_nonneg s,
    scoreFromSignals_score_le_100 s, risk_label_mem _⟩
  unfold compute_risk
  rw [hs]
  rfl

/-- Claim C4 witness: the empty state is well-shaped and scores in
bounds. -/
theorem compute_risk_ok_on_wellShaped_witness :
    ∃ r, compute_risk 0 (.dict []) = Except.ok r ∧ 0 ≤ r.score ∧ r.score ≤ 100 ∧
      r.label ∈ (["low", "medium", "high"] : List String) :=
  compute_risk_ok_on_wellShaped 0 (.dict []) rfl

/-- Claim C4 counterexample: a state whose `verifications` sub-section is
a string (malformed, not absent) makes `compute_risk` raise
`AttributeError` instead of treating the channel as "no match", so
`compute_risk` is not total on malformed states. -/
theorem compute_risk_malformed_counterexample :
    compute_risk 0 (.dict [("verifications", .str "oops")]) =
      Except.error "AttributeError" := rfl

/-- Claim C9: a successfully computed risk result is labelled `"high"`
exactly when the sanctions-match signal is truthy; without a sanctions
match the score is at most 65 = 30+20+15 (the reserved negative rules are
always off), which is below the 70 threshold. -/
theorem high_label_iff_sanctions (today : Int) (state : PyVal) (s : Signals) (r : RiskResult)
    (hs : _get_normalized_signals today state = Except.ok s)
    (hr : compute_risk today state = Except.ok r) :
    (r.label = "high" ↔ s.sanctions_match.truthy = true) ∧
    (s.sanctions_match.truthy = false → r.score ≤ 65) := by
  unfold compute_risk at hr
  rw [hs] at hr
  have hres : (Except.ok (scoreFromSignals s) : Except String RiskResult) = Except.ok r := hr
  cases hres
  obtain ⟨ham, hfb, -⟩ := get_normalized_signals_reserved hs
  obtain ⟨rm, ia, ag, sm, am, fb, ca⟩ := s
  simp only at ham hfb
  subst ham hfb
  rcases hsm : sm.truthy <;> rcases hrm : rm.truthy <;> cases ia <;> cases ag <;>
    all_goals (simp only [scoreFromSignals, hrm, hsm]; decide)

/-- Claim C9 witness: the empty state has no sanctions match and is not
labelled `"high"`; its score 0 is at most 65. -/
theorem high_label_iff_sanctions_witness :
    ((⟨0, "low"⟩ : RiskResult).label = "high" ↔ (PyVal.bool false).truthy = true) ∧
    ((PyVal.bool false).truthy = false → (⟨0, "low"⟩ : RiskResult).score ≤ 65) :=
  high_label_iff_sanctions 0 (.dict [])
    ⟨.bool false, false, false, .bool false, false, false, 0⟩ ⟨0, "low"⟩ rfl rfl

/-- `parseDate` only succeeds on non-empty strings. -/
lemma parseDate_some_ne_empty {s : String} {ymd : Nat × Nat × Nat}
    (h : parseDate s = some ymd) : s ≠ "" := by
  intro he
  subst he
  rw [show parseDate "" = Option.none from rfl] at h
  exact Option.noConfusion h

/-- Claim C2 (amended): on every parseable `YYYY-MM-DD` string the company
age is `int(elapsed_days / 365.25)` with Python `int()` truncation toward
zero, i.e. `Int.tdiv (4 * elapsed) 1461`; this equals
`floor(elapsed_days / 365.25)` whenever the date is not in the future,
while for a future date the age is at most 0 (zero until a Julian year
ahead, negative only beyond) and the derived `ageGte3` signal is false. -/
theorem company_age_truncation (today : Int) (s : String) (y m d : Nat)
    (h : parseDate s = some (y, m, d)) :
    _calculate_company_age today (.str s) =
      Int.tdiv ((today - daysFromCivil y m d) * 4) 1461 ∧
    (0 ≤ today - daysFromCivil y m d →
      _calculate_company_age today (.str s) =
        Int.fdiv ((today - daysFromCivil y m d) * 4) 1461) ∧
    (today < daysFromCivil y m d →
      _calculate_company_age today (.str s) ≤ 0 ∧
      ¬ 3 ≤ _calculate_company_age today (.str s)) := by
  have hs : s ≠ "" := parseDate_some_ne_empty h
  have heq : _calculate_company_age today (.str s) =
      Int.tdiv ((today - daysFromCivil y m d) * 4) 1461 := by
    unfold _calculate_company_age
    simp [PyVal.truthy, hs, h]
  refine ⟨heq, fun hnn => ?_, fun hf => ?_⟩
  · rw [heq, Int.tdiv_eq_ediv (by positivity) (by norm_num),
      Int.fdiv_eq_ediv _ (by norm_num)]
  · have h1 : (0 : Int) ≤ -((today - daysFromCivil y m d) * 4) := by omega
    have h2 : 0 ≤ (-((today - daysFromCivil y m d) * 4)).tdiv 1461 :=
      Int.tdiv_nonneg h1 (by norm_num)
    have h3 := Int.neg_tdiv (-((today - daysFromCivil y m d) * 4)) 1461
    rw [neg_neg] at h3
    constructor <;> rw [heq] <;> omega

/-- Claim C2 witness: for today = 1970-01-01 and the future date
1970-01-02, the age is the truncated quotient (which evaluates to 0) and
`ageGte3` is false. -/
theorem company_age_truncation_witness :
    _calculate_company_age 0 (.str "1970-01-02") =
      Int.tdiv ((0 - daysFromCivil 1970 1 2) * 4) 1461 ∧
    (_calculate_company_age 0 (.str "1970-01-02") ≤ 0 ∧
      ¬ 3 ≤ _calculate_company_age 0 (.str "1970-01-02")) :=
  ⟨(company_age_truncation 0 "1970-01-02" 1970 1 2 rfl).1,
   (company_age_truncation 0 "1970-01-02" 1970 1 2 rfl).2.2 (by decide)⟩

/-- Claim C2 counterexample: for a date one day in the future the code
returns 0 (truncation toward zero), while `floor(elapsed_days / 365.25)`
is −1; in particular the result is not negative, contradicting both the
floor semantics and the "future date gives negative age" part of the
claim. -/
theorem company_age_floor_counterexample :
    _calculate_company_age 0 (.str "1970-01-02") = 0 ∧
    Int.fdiv ((0 - daysFromCivil 1970 1 2) * 4) 1461 = -1 ∧
    ¬ _calculate_company_age 0 (.str "1970-01-02") < 0 :=
  ⟨rfl, by decide, by decide⟩

/-! ### Helper lemmas about the sanctions matcher -/

lemma frac_le_of_not_lt {a b : Frac} (h : a.lt b = false) : b.le a = true := by
  simp only [Frac.lt, Frac.le, decide_eq_false_iff_not, decide_eq_true_eq, not_lt] at *
  omega

lemma frac_lt_trans {a b c : Frac}
    (h1 : a.lt b = true) (h2 : b.lt c = true) : a.lt c = true := by
  simp only [Frac.lt, decide_eq_true_eq] at *
  have ha : 0 < a.den := by
    rcases Nat.eq_zero_or_pos a.den with h0 | h0
    · rw [h0, Nat.mul_zero] at h1
      exact absurd h1 (Nat.not_lt_zero _)
    · exact h0
  have key : a.num * c.den * b.den < c.num * a.den * b.den := by
    calc a.num * c.den * b.den = a.num * b.den * c.den := by ring
    _ ≤ b.num * a.den * c.den := mul_le_mul_of_nonneg_right (le_of_lt h1) (Nat.zero_le _)
    _ = b.num * c.den * a.den := by ring
    _ < c.num * b.den * a.den := mul_lt_mul_of_pos_right h2 ha
    _ = c.num * a.den * b.den := by ring
  exact lt_of_mul_lt_mul_right key (Nat.zero_le _)

lemma frac_le_lt_trans {a b c : Frac} (ha : 0 < a.den)
    (h1 : a.le b = true) (h2 : b.lt c = true) : a.lt c = true := by
  simp only [Frac.le, Frac.lt, decide_eq_true_eq] at *
  have key : a.num * c.den * b.den < c.num * a.den * b.den := by
    calc a.num * c.den * b.den = a.num * b.den * c.den := by ring
    _ ≤ b.num * a.den * c.den := mul_le_mul_of_nonneg_right h1 (Nat.zero_le _)
    _ = b.num * c.den * a.den := by ring
    _ < c.num * b.den * a.den := mul_lt_mul_of_pos_right h2 ha
    _ = c.num * a.den * b.den := by ring
  exact lt_of_mul_lt_mul_right key (Nat.zero_le _)

lemma ratio_den_pos (s1 s2 : List Char) : 0 < (ratio s1 s2).den := by
  unfold ratio
  dsimp only
  split_ifs with h
  · norm_num
  · dsimp only
    omega

lemma foldl_ratio_den_pos (shorter : List Char) (ws : List (List Char)) (acc : Frac)
    (hacc : 0 < acc.den) :
    0 < (ws.foldl (fun acc w => let r := ratio shorter w; if acc.lt r then r else acc)
      acc).den := by
  induction ws generalizing acc with
  | nil => exact hacc
  | cons w ws ih =>
    simp only [List.foldl_cons]
    apply ih
    dsimp only
    split_ifs
    · exact ratio_den_pos shorter w
    · exact hacc

lemma bestAlignRatio_den_pos (s1 s2 : List Char) : 0 < (bestAlignRatio s1 s2).den := by
  unfold bestAlignRatio
  exact foldl_ratio_den_pos _ _ _ (by norm_num)

/-- Python `max` over a non-empty list with a key: the result splits the
list as `ys ++ result :: zs` where everything before is strictly smaller
and everything after is no larger — i.e. the first maximizer wins
(stated over the underlying fold with an arbitrary accumulator). -/
lemma pyMax_foldl_spec (key : String → Frac) (hd : ∀ z, 0 < (key z).den) :
    ∀ (xs : List String) (acc : String),
      (xs.foldl (fun a y => if (key a).lt (key y) then y else a) acc = acc ∧
        ∀ z ∈ xs, (key z).le (key acc) = true) ∨
      (∃ ys r zs, xs = ys ++ r :: zs ∧
        xs.foldl (fun a y => if (key a).lt (key y) then y else a) acc = r ∧
        (key acc).lt (key r) = true ∧
        (∀ z ∈ ys, (key z).lt (key r) = true) ∧
        (∀ z ∈ zs, (key z).le (key r) = true)) := by
  intro xs
  induction xs with
  | nil => exact fun acc => Or.inl ⟨rfl, by simp⟩
  | cons y xs ih =>
    intro acc
    simp only [List.foldl_cons]
    by_cases hlt : (key acc).lt (key y) = true
    · rw [if_pos hlt]
      rcases ih y with ⟨heq, hall⟩ | ⟨ys, r, zs, hsplit, heq, hgt, hys, hzs⟩
      · exact Or.inr ⟨[], y, xs, by simp, heq, hlt, by simp, hall⟩
      · refine Or.inr ⟨y :: ys, r, zs, by simp [hsplit], heq,
          frac_lt_trans hlt hgt, ?_, hzs⟩
        intro z hz
        rcases List.mem_cons.mp hz with rfl | hz
        · exact hgt
        · exact hys z hz
    · rw [if_neg hlt]
      have hlt' : (key acc).lt (key y) = false := by
        simpa using hlt
      have hyle : (key y).le (key acc) = true := frac_le_of_not_lt hlt'
      rcases ih acc with ⟨heq, hall⟩ | ⟨ys, r, zs, hsplit, heq, hgt, hys, hzs⟩
      · refine Or.inl ⟨heq, ?_⟩
        intro z hz
        rcases List.mem_cons.mp hz with rfl | hz
        · exact hyle
        · exact hall z hz
      · refine Or.inr ⟨y :: ys, r, zs, by simp [hsplit], heq, hgt, ?_, hzs⟩
        intro z hz
        rcases List.mem_cons.mp hz with rfl | hz
        · exact frac_le_lt_trans (hd _) hyle hgt
        · exact hys z hz

/-- `pyMax_foldl_spec` specialized to `pyMax` itself. -/
lemma pyMax_spec (key : String → Frac) (hd : ∀ z, 0 < (key z).den)
    (x : String) (xs : List String) :
    (pyMax key x xs = x ∧ ∀ z ∈ xs, (key z).le (key x) = true) ∨
    (∃ ys zs, xs = ys ++ pyMax key x xs :: zs ∧
      (key x).lt (key (pyMax key x xs)) = true ∧
      (∀ z ∈ ys, (key z).lt (key (pyMax key x xs)) = true) ∧
      (∀ z ∈ zs, (key z).le (key (pyMax key x xs)) = true)) := by
  rcases pyMax_foldl_spec key hd xs x with ⟨heq, hall⟩ | ⟨ys, r, zs, hsplit, heq, hgt, hys, hzs⟩
  · left
    exact ⟨heq, hall⟩
  · right
    refine ⟨ys, zs, ?_, ?_, ?_, ?_⟩ <;> rw [show pyMax key x xs = r from heq]
    · exact hsplit
    · exact hgt
    · exact hys
    · exact hzs

/-- The similarity key used by `check_sanctions` for candidate `name`:
the partial-alignment ratio of the lower-cased candidate against a
(stored, already lower-cased) reference name. -/
def sanctionsKey (name listed_name : String) : Frac :=
  bestAlignRatio (pyLower name).data listed_name.data

/-- The reference name `check_sanctions` selects for a non-empty list:
Python `max` of the key over the list. -/
def bestSanctionsName (x : String) (xs : List String) (name : String) : String :=
  pyMax (sanctionsKey name) x xs

/-- Evaluation of `check_sanctions` past its guards, in terms of the
selected best name and its score. -/
lemma check_sanctions_cons (x : String) (xs : List String) (name : String) (hn : name ≠ "") :
    check_sanctions (x :: xs) name =
      ⟨decide ((sanctionsKey name (bestSanctionsName x xs name)).roundHalfEven ≥ MATCH_THRESHOLD),
       if decide ((sanctionsKey name (bestSanctionsName x xs name)).roundHalfEven ≥ MATCH_THRESHOLD)
           = true
         then some (pyTitle (bestSanctionsName x xs name)) else Option.none,
       (sanctionsKey name (bestSanctionsName x xs name)).roundHalfEven⟩ := by
  unfold check_sanctions
  dsimp only
  rw [if_neg hn]
  rfl

/-- Claim C3 (amended): for a non-empty candidate and reference list,
`check_sanctions` declares a match exactly when the *rounded integer*
best score reaches the threshold 86 (the raw best score may be as low as
85.5); the selected reference name is the maximizer of the
partial-alignment score with ties broken by first occurrence, rendered in
title case when matched, and the returned score is the rounded integer
best score. -/
theorem check_sanctions_selects_best (x : String) (xs : List String) (name : String)
    (hn : name ≠ "") :
    ((check_sanctions (x :: xs) name).matched = true ↔
      MATCH_THRESHOLD ≤ (sanctionsKey name (bestSanctionsName x xs name)).roundHalfEven) ∧
    (check_sanctions (x :: xs) name).score
      = (sanctionsKey name (bestSanctionsName x xs name)).roundHalfEven ∧
    (∃ ys zs, x :: xs = ys ++ bestSanctionsName x xs name :: zs ∧
      (∀ z ∈ ys,
        (sanctionsKey name z).lt (sanctionsKey name (bestSanctionsName x xs name)) = true) ∧
      (∀ z ∈ zs,
        (sanctionsKey name z).le (sanctionsKey name (bestSanctionsName x xs name)) = true)) ∧
    ((check_sanctions (x :: xs) name).matched = true →
      (check_sanctions (x :: xs) name).matched_name
        = some (pyTitle (bestSanctionsName x xs name))) ∧
    ((check_sanctions (x :: xs) name).matched = false →
      (check_sanctions (x :: xs) name).matched_name = Option.none) := by
  have hd : ∀ z, 0 < ((sanctionsKey name) z).den := fun z => bestAlignRatio_den_pos _ _
  rw [check_sanctions_cons x xs name hn]
  refine ⟨by simp [ge_iff_le], rfl, ?_, ?_, ?_⟩
  · unfold bestSanctionsName
    rcases pyMax_spec (sanctionsKey name) hd x xs with ⟨heq, hall⟩ |
      ⟨ys, zs, hsplit, hgtx, hys, hzs⟩
    · refine ⟨[], xs, ?_, ?_, ?_⟩
      · rw [heq]
        rfl
      · intro z hz
        exact absurd hz (List.not_mem_nil z)
      · rw [heq]
        exact hall
    · refine ⟨x :: ys, zs, ?_, ?_, hzs⟩
      · rw [List.cons_append]
        exact congrArg (List.cons x) hsplit
      · intro z hz
        rcases List.mem_cons.mp hz with rfl | hz
        · exact hgtx
        · exact hys z hz
  · intro h
    dsimp only at h ⊢
    simp [h]
  · intro h
    dsimp only at h ⊢
    simp [h]

/-- Claim C3 witness: a singleton list with an exact match. -/
theorem check_sanctions_selects_best_witness :
    ((check_sanctions ["ab"] "ab").matched = true ↔
      MATCH_THRESHOLD ≤ (sanctionsKey "ab" (bestSanctionsName "ab" [] "ab")).roundHalfEven) ∧
    (check_sanctions ["ab"] "ab").score
      = (sanctionsKey "ab" (bestSanctionsName "ab" [] "ab")).roundHalfEven ∧
    (∃ ys zs, ["ab"] = ys ++ bestSanctionsName "ab" [] "ab" :: zs ∧
      (∀ z ∈ ys,
        (sanctionsKey "ab" z).lt (sanctionsKey "ab" (bestSanctionsName "ab" [] "ab")) = true) ∧
      (∀ z ∈ zs,
        (sanctionsKey "ab" z).le (sanctionsKey "ab" (bestSanctionsName "ab" [] "ab")) = true)) ∧
    ((check_sanctions ["ab"] "ab").matched = true →
      (check_sanctions ["ab"] "ab").matched_name
        = some (pyTitle (bestSanctionsName "ab" [] "ab"))) ∧
    ((check_sanctions ["ab"] "ab").matched = false →
      (check_sanctions ["ab"] "ab").matched_name = Option.none) :=
  check_sanctions_selects_best "ab" [] "ab" (by decide)

/-- Claim C3 counterexample: candidate `"aaaaaab"` against reference list
`["aaaaaaa"]` is declared a match although the raw best
partial-similarity score 600/7 ≈ 85.71 is strictly below 86 — the code
thresholds the *rounded* score, not the raw score. -/
theorem check_sanctions_threshold_counterexample :
    (check_sanctions ["aaaaaaa"] "aaaaaab").matched = true ∧
    (bestAlignRatio (pyLower "aaaaaab").data "aaaaaaa".data).lt ⟨86, 1⟩ = true :=
  ⟨rfl, rfl⟩

/-- Claim C8: the empty-list and empty-name guards return the literal
no-match record with score 0; a below-threshold run on a non-empty name
and list returns `matched = false` and no matched name, but reports the
best observed rounded score rather than 0. -/
theorem check_sanctions_guard_vs_below_threshold :
    (∀ name, check_sanctions [] name = ⟨false, Option.none, 0⟩) ∧
    (∀ l, check_sanctions l "" = ⟨false, Option.none, 0⟩) ∧
    (∀ x xs name, name ≠ "" →
      (sanctionsKey name (bestSanctionsName x xs name)).roundHalfEven < MATCH_THRESHOLD →
      check_sanctions (x :: xs) name =
        ⟨false, Option.none,
          (sanctionsKey name (bestSanctionsName x xs name)).roundHalfEven⟩) := by
  refine ⟨fun name => rfl, fun l => ?_, fun x xs name hn hlt => ?_⟩
  · cases l with
    | nil => rfl
    | cons x xs =>
      unfold check_sanctions
      dsimp only
      rw [if_pos rfl]
  · rw [check_sanctions_cons x xs name hn]
    have hd : ¬ ((sanctionsKey name (bestSanctionsName x xs name)).roundHalfEven
        ≥ MATCH_THRESHOLD) := by omega
    simp [decide_eq_false hd]

/-- Claim C8 witness: the two guards, and a below-threshold run whose
score field is the best observed rounded score. -/
theorem check_sanctions_guard_vs_below_threshold_witness :
    check_sanctions [] "abc" = ⟨false, Option.none, 0⟩ ∧
    check_sanctions ["x"] "" = ⟨false, Option.none, 0⟩ ∧
    check_sanctions ["zzzz"] "ab" =
      ⟨false, Option.none,
        (sanctionsKey "ab" (bestSanctionsName "zzzz" [] "ab")).roundHalfEven⟩ :=
  ⟨check_sanctions_guard_vs_below_threshold.1 "abc",
   check_sanctions_guard_vs_below_threshold.2.1 ["x"],
   check_sanctions_guard_vs_below_threshold.2.2 "zzzz" [] "ab" (by decide) (by decide)⟩

/-- Claim C7: the registry status normalizer is a closed, total mapping —
`None` or the empty string give `"unknown"`; for a non-empty string the
lower-cased input is tested for exact membership in the three fixed
synonym sets (so known synonyms match case-insensitively), anything else
gives `"other"`, and every input yields one of exactly five labels. -/
theorem normalize_status_total :
    _normalize_status Option.none = "unknown" ∧
    _normalize_status (some "") = "unknown" ∧
    (∀ s : String, _normalize_status (some s) ∈
      (["active", "inactive", "dissolved", "unknown", "other"] : List String)) ∧
    (∀ s : String, s ≠ "" →
      (_normalize_status (some s) = "active" ↔
        pyLower s ∈ (["active", "company is active"] : List String)) ∧
      (_normalize_status (some s) = "inactive" ↔
        pyLower s ∈ (["inactive", "in liquidation"] : List String)) ∧
      (_normalize_status (some s) = "dissolved" ↔
        pyLower s ∈ (["dissolved", "converted to another form", "closed"] : List String)) ∧
      (pyLower s ∉ (["active", "company is active", "inactive", "in liquidation",
          "dissolved", "converted to another form", "closed"] : List String) →
        _normalize_status (some s) = "other")) := by
  refine ⟨rfl, rfl, fun s => ?_, fun s hs => ?_⟩
  · unfold _normalize_status
    dsimp only
    split_ifs <;> simp
  · unfold _normalize_status
    dsimp only
    rw [if_neg hs]
    split_ifs with h1 h2 h3
    · rcases h1 with h1 | h1 <;> simp_all
    · rcases h2 with h2 | h2 <;> simp_all
    · rcases h3 with h3 | h3 | h3 <;> simp_all
    · simp_all

/-- Claim C7 witness: an unrecognized status maps to `"other"` and is
characterized by the membership tests. -/
theorem normalize_status_total_witness :
    _normalize_status Option.none = "unknown" ∧
    (_normalize_status (some "weird") = "active" ↔
      pyLower "weird" ∈ (["active", "company is active"] : List String)) ∧
    _normalize_status (some "weird") = "other" :=
  ⟨normalize_status_total.1,
   (normalize_status_total.2.2.2 "weird" (by decide)).1,
   (normalize_status_total.2.2.2 "weird" (by decide)).2.2.2 (by decide)⟩

end KYB
